import Mathlib

/-!
Verification of the SaturnRingLib VDP2 VRAM allocator and scroll-screen
loading protocol (`src/saturnringlib/srl_vdp2.hpp`).

The C++ code is shallowly embedded: the static allocator state becomes an
explicit state record threaded through pure functions, 32-bit unsigned
arithmetic becomes `Nat` with explicit `% 2^32` where wrap-around can occur,
and the `int8_t` cycle counters become `Int` with an explicit 8-bit wrap on
store.  Addresses are plain naturals.
-/

namespace SRLVDP2

/-- Base address of VDP2 VRAM bank A0 (SGL hardware constant). -/
def VDP2_VRAM_A0 : Nat := 0x25E00000

/-- Base address of VDP2 VRAM bank A1 (SGL hardware constant). -/
def VDP2_VRAM_A1 : Nat := 0x25E20000

/-- Base address of VDP2 VRAM bank B0 (SGL hardware constant). -/
def VDP2_VRAM_B0 : Nat := 0x25E40000

/-- Base address of VDP2 VRAM bank B1 (SGL hardware constant). -/
def VDP2_VRAM_B1 : Nat := 0x25E60000

/-- SGL tile cell size flag: 1x1-cell (8x8 pixel) characters. -/
def CHAR_SIZE_1x1 : Nat := 0

/-- SGL tile cell size flag: 2x2-cell (16x16 pixel) characters. -/
def CHAR_SIZE_2x2 : Nat := 1

/-- SGL pattern-name flag: two-word (32-bit) map entries. -/
def PNB_2WORD : Nat := 0

/-- SGL pattern-name flag: one-word (16-bit) map entries. -/
def PNB_1WORD : Nat := 0x8000

/-- SGL pattern-name flag: 10-bit character-number variant of one-word mode. -/
def CN_10BIT : Nat := 0x4000

/-- SGL plane-group size flag: 1x1 page per plane. -/
def PL_SIZE_1x1 : Nat := 0

/-- SGL plane-group size flag: 2x1 pages per plane. -/
def PL_SIZE_2x1 : Nat := 1

/-- SGL plane-group size flag: 2x2 pages per plane. -/
def PL_SIZE_2x2 : Nat := 3

/-- SGL scroll screen identifier of NBG0. -/
def scnNBG0 : Int := 0

/-- SGL scroll screen identifier of NBG1. -/
def scnNBG1 : Int := 1

/-- SGL scroll screen identifier of NBG2. -/
def scnNBG2 : Int := 2

/-- SGL scroll screen identifier of NBG3. -/
def scnNBG3 : Int := 3

/-- SGL scroll screen identifier of RBG0, the full-rotation layer. -/
def scnRBG0 : Int := 4

/-- Texture color depth of tile cell data (`SRL::CRAM::TextureColorMode`,
restricted to the three modes the VDP2 tilemap loader distinguishes). -/
inductive TextureColorMode where
  | Paletted16
  | Paletted256
  | RGB555
deriving DecidableEq, Repr

/-- Geometry and format description of a tilemap
(`SRL::Tilemap::TilemapInfo`), as consumed by the VDP2 loader. -/
structure TilemapInfo where
  MapWidth : Nat
  MapHeight : Nat
  CellByteSize : Nat
  CharSize : Nat
  MapMode : Nat
  PlaneSize : Nat
  ColorMode : TextureColorMode
deriving DecidableEq, Repr

/-- VDP2 VRAM allocator state: the static members `currentBot`, `currentTop`
and `bankCycles` of `VDP2::VRAM`.  (`bankBot`/`bankTop` are constants, kept
as separate definitions below.) -/
structure VRAMState where
  currentBot : Fin 4 → Nat
  currentTop : Fin 4 → Nat
  bankCycles : Fin 4 → Int

/-- Fixed bottom addresses of the four VRAM banks (`VDP2::VRAM::bankBot`). -/
def bankBot : Fin 4 → Nat :=
  ![VDP2_VRAM_A0, VDP2_VRAM_A1, VDP2_VRAM_B0, VDP2_VRAM_B1]

/-- Fixed top (ceiling) addresses of the four VRAM banks
(`VDP2::VRAM::bankTop`); the top 0x8000 of bank B1 is outside the allocator. -/
def bankTop : Fin 4 → Nat :=
  ![VDP2_VRAM_A1, VDP2_VRAM_B0, VDP2_VRAM_B1, VDP2_VRAM_B1 + 0x18000]

/-- Static-initializer state of the allocator: `currentBot = bankBot`,
`currentTop = bankTop`, `bankCycles = {-1,-1,-1,2}`. -/
def initVRAM : VRAMState :=
  { currentBot := bankBot
    currentTop := bankTop
    bankCycles := ![-1, -1, -1, 2] }

/-- Two to the 32nd, the modulus of `uint32_t` arithmetic. -/
def U32 : Nat := 2 ^ 32

/-- Wrap an integer into the `int8_t` range, as storing into
`VDP2::VRAM::bankCycles` does. -/
def wrap8 (x : Int) : Int := (x + 128) % 256 - 128

/-- `VDP2::VRAM::GetAvailable`: `(int)currentTop[bank] - (int)currentBot[bank]`
returned as `uint32_t`. -/
def GetAvailable (s : VRAMState) (bank : Fin 4) : Nat :=
  (((s.currentTop bank : Int) - (s.currentBot bank : Int)) % (U32 : Int)).toNat

/-- Alignment padding computed at the top of `VDP2::VRAM::Allocate`:
`addrOffset = boundary - (bot & (boundary-1))` when `bot & (boundary-1)` is
nonzero, else `0`, with the `uint32_t` subtractions made explicit. -/
def padOf (bot boundary : Nat) : Nat :=
  let mask := (boundary + U32 - 1) % U32
  let r := bot &&& mask
  if r ≠ 0 then (boundary + U32 - r) % U32 else 0

/-- `VDP2::VRAM::Allocate(size, boundary, bank, cycles)`: bump allocation in
one bank, gated on remaining byte space and on the bank cycle budget.
Returns the allocated address (`none` models the `nullptr` failure return)
and the updated allocator state. -/
def Allocate (size boundary : Nat) (bank : Fin 4) (cycles : Nat)
    (s : VRAMState) : Option Nat × VRAMState :=
  let bot := s.currentBot bank
  let addrOffset := padOf bot boundary
  if (size + addrOffset) % U32 ≤ GetAvailable s bank then
    if s.bankCycles bank + (cycles : Int) < 8 then
      (some ((bot + addrOffset) % U32),
       { s with
           currentBot := Function.update s.currentBot bank ((bot + size + addrOffset) % U32)
           bankCycles := Function.update s.bankCycles bank (wrap8 (s.bankCycles bank + (cycles : Int))) })
    else (none, s)
  else (none, s)

/-- One allocation request: the arguments of a single `Allocate` call. -/
structure Req where
  size : Nat
  boundary : Nat
  cycles : Nat
deriving DecidableEq, Repr

/-- Run a sequence of `Allocate` calls against one bank, collecting the
returned addresses. -/
def runAllocs (bank : Fin 4) : VRAMState → List Req → List (Option Nat) × VRAMState
  | s, [] => ([], s)
  | s, r :: rs =>
    let first := Allocate r.size r.boundary bank r.cycles s
    let rest := runAllocs bank first.2 rs
    (first.1 :: rest.1, rest.2)

/-- Final bump position after serving a request list from position `bot`,
each request advancing by its alignment padding plus its size. -/
def paddedEnd (bot : Nat) : List Req → Nat
  | [] => bot
  | r :: rs => paddedEnd (bot + padOf bot r.boundary + r.size) rs

/-- Addresses a request list receives when served from position `bot`:
each request is placed at the padded cursor. -/
def allocAddrsSpec (bot : Nat) : List Req → List Nat
  | [] => []
  | r :: rs =>
    (bot + padOf bot r.boundary) :: allocAddrsSpec (bot + padOf bot r.boundary + r.size) rs

/-- Cycle requirement of cell data by color depth, as computed by the
`switch` in the ordinary-layer branch of `VDP2::VRAM::AutoAllocateCell`. -/
def cellReqCycles : TextureColorMode → Nat
  | TextureColorMode.Paletted16 => 1
  | TextureColorMode.Paletted256 => 2
  | TextureColorMode.RGB555 => 4

/-- `VDP2::VRAM::AutoAllocateCell(info, screen)`: allocates cell data on a
32-byte boundary.  RBG0 reserves all 8 cycles of a bank, trying A0, A1, B0,
B1 in turn; ordinary layers derive their cycle cost from the color depth and
try B0, A1, A0, B1.  (The failure `Debug::Assert` only reports; the `nullptr`
result is returned either way.) -/
def AutoAllocateCell (info : TilemapInfo) (screen : Int) (s : VRAMState) :
    Option Nat × VRAMState :=
  if screen = scnRBG0 then
    match Allocate info.CellByteSize 32 0 8 s with
    | (some a, s0) => (some a, s0)
    | (none, s0) =>
      match Allocate info.CellByteSize 32 1 8 s0 with
      | (some a, s1) => (some a, s1)
      | (none, s1) =>
        match Allocate info.CellByteSize 32 2 8 s1 with
        | (some a, s2) => (some a, s2)
        | (none, s2) => Allocate info.CellByteSize 32 3 8 s2
  else
    let reqCycles := cellReqCycles info.ColorMode
    match Allocate info.CellByteSize 32 2 reqCycles s with
    | (some a, s0) => (some a, s0)
    | (none, s0) =>
      match Allocate info.CellByteSize 32 1 reqCycles s0 with
      | (some a, s1) => (some a, s1)
      | (none, s1) =>
        match Allocate info.CellByteSize 32 0 reqCycles s1 with
        | (some a, s2) => (some a, s2)
        | (none, s2) => Allocate info.CellByteSize 32 3 reqCycles s2

/-- Fallback chain of `Allocate` calls: try the banks in order with a fixed
size, 32-byte boundary and fixed cycle cost, stopping at the first success.
Written after the specification text, to compare with `AutoAllocateCell`. -/
def allocChain (size cyc : Nat) : List (Fin 4) → VRAMState → Option Nat × VRAMState
  | [], s => (none, s)
  | b :: bs, s =>
    match Allocate size 32 b cyc s with
    | (some a, s0) => (some a, s0)
    | (none, s0) => allocChain size cyc bs s0

/-- Map-data byte size computed by `VDP2::VRAM::AutoAllocateMap`:
`sz = (MapHeight * MapWidth) << 1`, doubled again in two-word mode. -/
def mapAllocSize (info : TilemapInfo) : Nat :=
  let sz := (info.MapHeight * info.MapWidth) <<< 1
  if info.MapMode = PNB_2WORD then sz <<< 1 else sz

/-- Page-alignment boundary computed by `VDP2::VRAM::AutoAllocateMap`:
starts at 0x800 and scales with cell size, map-entry width and plane-group
size. -/
def mapAllocBoundary (info : TilemapInfo) : Nat :=
  let p := 0x800
  let p := if info.CharSize = CHAR_SIZE_1x1 then p <<< 2 else p
  let p := if info.MapMode = PNB_2WORD then p <<< 1 else p
  if info.PlaneSize = PL_SIZE_2x2 then p <<< 2
  else if info.PlaneSize = PL_SIZE_2x1 then p <<< 1
  else p

/-- `VDP2::VRAM::AutoAllocateMap(info, screen)`: RBG0 takes all 8 cycles of
bank A0; ordinary layers take 1 cycle in bank A0 (skipped when
`bankCycles[0] == 7`, i.e. when RBG0 owns it) and fall back to bank B1. -/
def AutoAllocateMap (info : TilemapInfo) (screen : Int) (s : VRAMState) :
    Option Nat × VRAMState :=
  let sz := mapAllocSize info
  let page := mapAllocBoundary info
  if screen = scnRBG0 then
    Allocate sz page 0 8 s
  else
    if s.bankCycles 0 ≠ 7 then
      match Allocate sz page 0 1 s with
      | (some a, s0) => (some a, s0)
      | (none, s0) => Allocate sz page 3 1 s0
    else Allocate sz page 3 1 s

/-- Address-resolution portion of `VDP2::ScrollScreen::LoadTilemap` for a
layer whose map and cell addresses still hold the unallocated sentinel: the
map is auto-allocated first and a failure aborts the load before the cell
allocation is attempted.  Returns (map address, cell address, state).
Palette resolution, the data transfer and the register programming act on
external collaborators and do not touch the allocator state. -/
def loadAllocs (info : TilemapInfo) (screen : Int) (s : VRAMState) :
    Option Nat × Option Nat × VRAMState :=
  match AutoAllocateMap info screen s with
  | (none, s0) => (none, none, s0)
  | (some m, s0) =>
    let cell := AutoAllocateCell info screen s0
    (some m, cell.1, cell.2)

/-- `VDP2::ScrollScreen::SetPlanesDefault`: chooses the default 2x2 grid of
plane indices from the map geometry.  Returns the four indices passed to
`SetMapLayout(a, b, c, d)`. -/
def SetPlanesDefault (info : TilemapInfo) : Nat × Nat × Nat × Nat :=
  let mapX := 32
  let mapY := 32
  let mapX := if info.CharSize = CHAR_SIZE_1x1 then mapX <<< 1 else mapX
  let mapY := if info.CharSize = CHAR_SIZE_1x1 then mapY <<< 1 else mapY
  let mapX :=
    if info.PlaneSize = PL_SIZE_2x2 then mapX <<< 1
    else if info.PlaneSize = PL_SIZE_2x1 then mapX <<< 1
    else mapX
  let mapY := if info.PlaneSize = PL_SIZE_2x2 then mapY <<< 1 else mapY
  if info.MapWidth > mapX then
    if info.MapHeight > mapY then (0, 1, 2, 3) else (0, 1, 0, 1)
  else
    if info.MapHeight > mapY then (0, 0, 1, 1) else (0, 0, 0, 0)

/-- Default plane-layout step of `LoadTilemap` (line
`if (ScreenID != scnRBG0) SetPlanesDefault(Info)`): ordinary layers compute
the default layout, RBG0 skips the computation entirely. -/
def loadPlaneLayout (screen : Int) (info : TilemapInfo) :
    Option (Nat × Nat × Nat × Nat) :=
  if screen ≠ scnRBG0 then some (SetPlanesDefault info) else none

/-- Sentinel stored in every layer's address fields while unallocated:
one below the lowest valid VRAM address. -/
def unallocated : Nat := VDP2_VRAM_A0 - 1

/-- `VDP2::ScrollScreen::GetPageAddress(index)`: `nullptr` while the map
address is below `VDP2_VRAM_A0`, else the map address plus the page offset.
(The offsets stay far below 2^32, so no wrap is modelled.) -/
def GetPageAddress (mapAddress : Nat) (info : TilemapInfo) (index : Nat) :
    Option Nat :=
  if mapAddress < VDP2_VRAM_A0 then none
  else
    let offset := 2048 * index
    let offset := if info.CharSize = CHAR_SIZE_1x1 then offset <<< 2 else offset
    let offset := if info.MapMode = PNB_2WORD then offset <<< 1 else offset
    some (mapAddress + offset)

/-- `VDP2::ScrollScreen::GetPlaneAddress(index)`: like `GetPageAddress` with
an additional scaling by the plane-group size. -/
def GetPlaneAddress (mapAddress : Nat) (info : TilemapInfo) (index : Nat) :
    Option Nat :=
  if mapAddress < VDP2_VRAM_A0 then none
  else
    let offset := 2048 * index
    let offset := if info.CharSize = CHAR_SIZE_1x1 then offset <<< 2 else offset
    let offset := if info.MapMode = PNB_2WORD then offset <<< 1 else offset
    let offset :=
      if info.PlaneSize = PL_SIZE_2x2 then offset <<< 2
      else if info.PlaneSize = PL_SIZE_2x1 then offset <<< 1
      else offset
    some (mapAddress + offset)

/-- `uint32_t` subtraction `a - b`. -/
def sub32 (a b : Nat) : Nat := (a + U32 - b % U32) % U32

/-- `VDP2::ScrollScreen::GetCellOffset(tile, cellAddress)`: the cell-index
offset added to map entries when cell data does not start on the bank
boundary.  Branches on the stored map-entry mode and cell size. -/
def GetCellOffset (info : TilemapInfo) (cellAddress : Nat) : Nat :=
  if info.MapMode = 0 then sub32 cellAddress VDP2_VRAM_A0 >>> 5
  else if info.MapMode = 0x8000 then
    if info.CharSize ≠ 0 then (sub32 cellAddress VDP2_VRAM_A0 &&& 0x1FFFF) >>> 7
    else (sub32 cellAddress VDP2_VRAM_A0 &&& 0x7FFF) >>> 5
  else
    if info.CharSize ≠ 0 then sub32 cellAddress VDP2_VRAM_A0 >>> 7
    else (sub32 cellAddress VDP2_VRAM_A0 &&& 0x1FFFF) >>> 5

/-- `VDP2::ScrollScreen::Map2VRAM`: per-entry transform applied while the
map is copied to VRAM.  One-word mode stores 16-bit entries
`(entry + mapoff) | (paloff << 12)`; two-word mode stores 32-bit entries
`(entry + mapoff) | (paloff << 20)`. -/
def Map2VRAM (info : TilemapInfo) (mapData : List Nat) (paloff mapoff : Nat) :
    List Nat :=
  mapData.map fun e =>
    if info.MapMode ≠ 0 then ((e + mapoff) ||| (paloff <<< 12)) % 2 ^ 16
    else ((e + mapoff) ||| (paloff <<< 20)) % U32

/-- `VDP2::ScrollScreen::SetOpacity`, on the raw 16.16 fixed-point value of
the opacity.  Returns the updated `ColorCalcScrolls` mask and the discrete
ratio passed to `slColRate` (`none` when no ratio is set).  `screenOn` is the
layer's `ScreenON` bit. -/
def SetOpacity (raw : Int) (colorCalcScrolls screenOn : Nat) :
    Nat × Option Nat :=
  if raw < 0 then (colorCalcScrolls, none)
  else if 65536 ≤ raw then (colorCalcScrolls &&& (0xFFFF ^^^ screenOn), none)
  else (colorCalcScrolls ||| screenOn, some (31 - raw.toNat >>> 11))

/-- Per-layer and allocator state touched by `VDP2::ClearVRAM`: the VRAM
allocator plus every scroll screen's VRAM reference fields. -/
structure VDP2State where
  vram : VRAMState
  nbg0Map : Nat
  nbg0Cell : Nat
  nbg0Line : Nat
  nbg1Map : Nat
  nbg1Cell : Nat
  nbg1Line : Nat
  nbg2Map : Nat
  nbg2Cell : Nat
  nbg3Map : Nat
  nbg3Cell : Nat
  rbg0Map : Nat
  rbg0Cell : Nat
  rbg0Ktable : Nat

/-- Static-initializer state of the whole component: every layer address at
the unallocated sentinel, allocator at its initializer values. -/
def initState : VDP2State :=
  { vram := initVRAM
    nbg0Map := unallocated, nbg0Cell := unallocated, nbg0Line := unallocated
    nbg1Map := unallocated, nbg1Cell := unallocated, nbg1Line := unallocated
    nbg2Map := unallocated, nbg2Cell := unallocated
    nbg3Map := unallocated, nbg3Cell := unallocated
    rbg0Map := unallocated, rbg0Cell := unallocated, rbg0Ktable := unallocated }

/-- `VDP2::ClearVRAM`: resets every layer's VRAM references to the sentinel,
restores each bank's bounds to `bankBot`/`bankTop`, sets every cycle counter
to -1 and then bank 3 (B1) to 1, the cycles kept reserved for the ASCII
overlay.  (Releasing the CRAM palettes and clearing `VDP2_RAMCTL` act on
external collaborators and are not modelled.) -/
def ClearVRAM (_s : VDP2State) : VDP2State :=
  { vram :=
      { currentBot := bankBot
        currentTop := bankTop
        bankCycles := ![-1, -1, -1, 1] }
    nbg0Map := unallocated, nbg0Cell := unallocated, nbg0Line := unallocated
    nbg1Map := unallocated, nbg1Cell := unallocated, nbg1Line := unallocated
    nbg2Map := unallocated, nbg2Cell := unallocated
    nbg3Map := unallocated, nbg3Cell := unallocated
    rbg0Map := unallocated, rbg0Cell := unallocated, rbg0Ktable := unallocated }

/-- Allocator state right after `ClearVRAM`. -/
def resetVRAM : VRAMState := (ClearVRAM initState).vram

/-- Tilemap geometry used in the two-ordinary-layer loading scenario:
64x64 tile units, 1x1 cells, one-word map entries, 8-bit indexed color,
0x4000 bytes of cell data. -/
def tilemap256 : TilemapInfo :=
  { MapWidth := 64, MapHeight := 64, CellByteSize := 0x4000
    CharSize := CHAR_SIZE_1x1, MapMode := PNB_1WORD, PlaneSize := PL_SIZE_1x1
    ColorMode := TextureColorMode.Paletted256 }

/-- Geometry whose 2x2-cell characters and 2x2 plane-group size double each
plane's capacity from 32x32 to 64x64 tile units, with a 64x64 map. -/
def tilemapPlane64 : TilemapInfo :=
  { MapWidth := 64, MapHeight := 64, CellByteSize := 0
    CharSize := CHAR_SIZE_2x2, MapMode := PNB_1WORD, PlaneSize := PL_SIZE_2x2
    ColorMode := TextureColorMode.Paletted256 }

/-- Same as `tilemapPlane64` but with a 128x64 map. -/
def tilemapPlane128 : TilemapInfo := { tilemapPlane64 with MapWidth := 128 }

/-!  Helper lemmas about the allocator. -/

theorem U32_eq : U32 = 4294967296 := by norm_num [U32]

theorem getAvailable_eq (s : VRAMState) (bank : Fin 4)
    (hbt : s.currentBot bank ≤ s.currentTop bank)
    (htop : s.currentTop bank < U32) :
    GetAvailable s bank = s.currentTop bank - s.currentBot bank := by
  rw [U32_eq] at htop
  unfold GetAvailable
  rw [U32_eq]
  push_cast
  omega

theorem sub32_eq (a b : Nat) (h1 : b ≤ a) (h2 : a < U32) : sub32 a b = a - b := by
  rw [U32_eq] at h2
  simp only [sub32, U32_eq]
  omega

theorem padOf_lt (bot boundary : Nat) (hb : 0 < boundary) (hbU : boundary < U32) :
    padOf bot boundary < boundary := by
  rw [U32_eq] at hbU
  have hr : bot &&& (boundary - 1) ≤ boundary - 1 := Nat.and_le_right
  simp only [padOf, U32_eq]
  have hmask : (boundary + 4294967296 - 1) % 4294967296 = boundary - 1 := by omega
  rw [hmask]
  split
  · rename_i h
    omega
  · omega

theorem allocate_succeeds (size boundary : Nat) (bank : Fin 4) (cycles : Nat)
    (s : VRAMState)
    (hb : 0 < boundary) (hbU : boundary < U32) (hsz : size + boundary ≤ U32)
    (hbt : s.currentBot bank ≤ s.currentTop bank)
    (htop : s.currentTop bank < U32)
    (hc : -128 ≤ s.bankCycles bank)
    (hfit : s.currentBot bank + padOf (s.currentBot bank) boundary + size ≤
      s.currentTop bank)
    (hcy : s.bankCycles bank + (cycles : Int) < 8) :
    Allocate size boundary bank cycles s =
      (some (s.currentBot bank + padOf (s.currentBot bank) boundary),
       { s with
           currentBot := Function.update s.currentBot bank
             (s.currentBot bank + padOf (s.currentBot bank) boundary + size)
           bankCycles := Function.update s.bankCycles bank
             (s.bankCycles bank + (cycles : Int)) }) := by
  have hpad := padOf_lt (s.currentBot bank) boundary hb hbU
  have hav := getAvailable_eq s bank hbt htop
  rw [U32_eq] at hbU hsz htop
  simp only [Allocate, hav]
  rw [Nat.mod_eq_of_lt (by rw [U32_eq]; omega)]
  rw [if_pos (by omega), if_pos hcy]
  have h1 : (s.currentBot bank + padOf (s.currentBot bank) boundary) % U32 =
      s.currentBot bank + padOf (s.currentBot bank) boundary := by
    rw [U32_eq]; omega
  have h2 : (s.currentBot bank + size + padOf (s.currentBot bank) boundary) % U32 =
      s.currentBot bank + padOf (s.currentBot bank) boundary + size := by
    rw [U32_eq]; omega
  have h3 : wrap8 (s.bankCycles bank + (cycles : Int)) =
      s.bankCycles bank + (cycles : Int) := by
    unfold wrap8; omega
  rw [h1, h2, h3]

theorem allocate_fails (size boundary : Nat) (bank : Fin 4) (cycles : Nat)
    (s : VRAMState)
    (hb : 0 < boundary) (hbU : boundary < U32) (hsz : size + boundary ≤ U32)
    (hbt : s.currentBot bank ≤ s.currentTop bank)
    (htop : s.currentTop bank < U32)
    (h : s.currentTop bank < s.currentBot bank + padOf (s.currentBot bank) boundary + size ∨
      8 ≤ s.bankCycles bank + (cycles : Int)) :
    Allocate size boundary bank cycles s = (none, s) := by
  have hpad := padOf_lt (s.currentBot bank) boundary hb hbU
  have hav := getAvailable_eq s bank hbt htop
  rw [U32_eq] at hbU hsz htop
  simp only [Allocate, hav]
  rw [Nat.mod_eq_of_lt (by rw [U32_eq]; omega)]
  rcases h with h | h
  · rw [if_neg (by omega)]
  · by_cases hsp : size + padOf (s.currentBot bank) boundary ≤
      s.currentTop bank - s.currentBot bank
    · rw [if_pos hsp, if_neg (by omega)]
    · rw [if_neg hsp]

theorem allocate_none_state (size boundary : Nat) (bank : Fin 4) (cycles : Nat)
    (s : VRAMState) (h : (Allocate size boundary bank cycles s).1 = none) :
    (Allocate size boundary bank cycles s).2 = s := by
  simp only [Allocate] at h ⊢
  split_ifs at h ⊢ <;> simp_all

theorem le_paddedEnd (reqs : List Req) (bot : Nat) : bot ≤ paddedEnd bot reqs := by
  induction reqs generalizing bot with
  | nil => simp [paddedEnd]
  | cons r rs ih =>
    calc bot ≤ bot + padOf bot r.boundary + r.size := by omega
    _ ≤ _ := ih _

theorem mem_allocAddrsSpec_ge (reqs : List Req) (bot : Nat) :
    ∀ a ∈ allocAddrsSpec bot reqs, bot ≤ a := by
  induction reqs generalizing bot with
  | nil => simp [allocAddrsSpec]
  | cons r rs ih =>
    intro a ha
    simp only [allocAddrsSpec, List.mem_cons] at ha
    rcases ha with rfl | ha
    · omega
    · have := ih _ a ha
      omega

theorem allocAddrsSpec_pairwise (reqs : List Req) (bot : Nat) :
    List.Pairwise (fun x y => x.1 + x.2 ≤ y.1)
      ((allocAddrsSpec bot reqs).zip (reqs.map Req.size)) := by
  induction reqs generalizing bot with
  | nil => simp [allocAddrsSpec]
  | cons r rs ih =>
    simp only [allocAddrsSpec, List.map_cons, List.zip_cons_cons]
    refine List.Pairwise.cons ?_ (ih _)
    rintro ⟨ya, yb⟩ hy
    have h1 := (List.of_mem_zip hy).1
    have h2 := mem_allocAddrsSpec_ge rs _ ya h1
    simpa using h2

theorem runAllocs_spec (reqs : List Req) (bank : Fin 4) (s : VRAMState)
    (hreq : ∀ r ∈ reqs, 0 < r.boundary ∧ r.boundary < U32 ∧ r.size + r.boundary ≤ U32)
    (hbt : s.currentBot bank ≤ s.currentTop bank)
    (htop : s.currentTop bank < U32)
    (hc : -128 ≤ s.bankCycles bank)
    (hcy : s.bankCycles bank + ((reqs.map Req.cycles).sum : Int) < 8)
    (hfit : paddedEnd (s.currentBot bank) reqs ≤ s.currentTop bank) :
    (runAllocs bank s reqs).1 = (allocAddrsSpec (s.currentBot bank) reqs).map some ∧
    (runAllocs bank s reqs).2.currentBot bank = paddedEnd (s.currentBot bank) reqs ∧
    (runAllocs bank s reqs).2.currentTop bank = s.currentTop bank ∧
    (runAllocs bank s reqs).2.bankCycles bank =
      s.bankCycles bank + ((reqs.map Req.cycles).sum : Int) := by
  induction reqs generalizing s with
  | nil => simp [runAllocs, allocAddrsSpec, paddedEnd]
  | cons r rs ih =>
    obtain ⟨hb, hbU, hsz⟩ := hreq r (List.mem_cons_self r rs)
    have hfit1 : paddedEnd (s.currentBot bank + padOf (s.currentBot bank) r.boundary +
        r.size) rs ≤ s.currentTop bank := by
      simpa [paddedEnd] using hfit
    have hstep : s.currentBot bank + padOf (s.currentBot bank) r.boundary + r.size ≤
        s.currentTop bank :=
      le_trans (le_paddedEnd rs _) hfit1
    have hcy1 : s.bankCycles bank + (r.cycles : Int) < 8 := by
      simp only [List.map_cons, List.sum_cons, Nat.cast_add] at hcy
      omega
    have halloc := allocate_succeeds r.size r.boundary bank r.cycles s
      hb hbU hsz hbt htop hc hstep hcy1
    have IH := ih
      { s with
          currentBot := Function.update s.currentBot bank
            (s.currentBot bank + padOf (s.currentBot bank) r.boundary + r.size)
          bankCycles := Function.update s.bankCycles bank
            (s.bankCycles bank + (r.cycles : Int)) }
      (fun r2 hr2 => hreq r2 (List.mem_cons_of_mem r hr2))
      (by simpa using hstep)
      (by simpa using htop)
      (by simp only [Function.update_same]; omega)
      (by
        simp only [Function.update_same]
        simp only [List.map_cons, List.sum_cons, Nat.cast_add] at hcy
        omega)
      (by simpa using hfit1)
    simp only [runAllocs, halloc]
    simp only [Function.update_same] at IH
    refine ⟨?_, ?_, ?_, ?_⟩
    · simp only [allocAddrsSpec, List.map_cons, List.cons.injEq]
      exact ⟨trivial, IH.1⟩
    · simpa [paddedEnd] using IH.2.1
    · simpa using IH.2.2.1
    · simp only [List.map_cons, List.sum_cons, Nat.cast_add]
      have hlast := IH.2.2.2
      omega

theorem autoCell_rbg0_chain (info : TilemapInfo) (s : VRAMState) :
    AutoAllocateCell info scnRBG0 s =
      allocChain info.CellByteSize 8 [0, 1, 2, 3] s := by
  simp only [AutoAllocateCell, allocChain, ite_true, if_true, eq_self_iff_true]
  generalize Allocate info.CellByteSize 32 0 8 s = p0
  obtain ⟨o0, s0⟩ := p0
  cases o0 with
  | some a => rfl
  | none =>
    dsimp only
    generalize Allocate info.CellByteSize 32 1 8 s0 = p1
    obtain ⟨o1, s1⟩ := p1
    cases o1 with
    | some a => rfl
    | none =>
      dsimp only
      generalize Allocate info.CellByteSize 32 2 8 s1 = p2
      obtain ⟨o2, s2⟩ := p2
      cases o2 with
      | some a => rfl
      | none =>
        dsimp only
        generalize Allocate info.CellByteSize 32 3 8 s2 = p3
        obtain ⟨o3, s3⟩ := p3
        cases o3 <;> rfl

theorem autoCell_ordinary_chain (info : TilemapInfo) (screen : Int)
    (s : VRAMState) (h : screen ≠ scnRBG0) :
    AutoAllocateCell info screen s =
      allocChain info.CellByteSize (cellReqCycles info.ColorMode) [2, 1, 0, 3] s := by
  simp only [AutoAllocateCell, allocChain, if_neg h]
  generalize Allocate info.CellByteSize 32 2 (cellReqCycles info.ColorMode) s = p0
  obtain ⟨o0, s0⟩ := p0
  cases o0 with
  | some a => rfl
  | none =>
    dsimp only
    generalize Allocate info.CellByteSize 32 1 (cellReqCycles info.ColorMode) s0 = p1
    obtain ⟨o1, s1⟩ := p1
    cases o1 with
    | some a => rfl
    | none =>
      dsimp only
      generalize Allocate info.CellByteSize 32 0 (cellReqCycles info.ColorMode) s1 = p2
      obtain ⟨o2, s2⟩ := p2
      cases o2 with
      | some a => rfl
      | none =>
        dsimp only
        generalize Allocate info.CellByteSize 32 3 (cellReqCycles info.ColorMode) s2 = p3
        obtain ⟨o3, s3⟩ := p3
        cases o3 <;> rfl

/-!  Claim theorems. -/

/-- C1: `VRAM::Allocate(size, boundary, bank, cycles)` returns the `nullptr`
failure sentinel (and never throws: the model is a total function) exactly
when the bank's current offset plus alignment padding plus the size would
exceed the bank's fixed ceiling, or when the bank's consumed cycle count
(the stored `int8_t` plus its `-1` baseline offset) plus the requested cycle
cost would exceed 8; and in every failure case the allocator state — the
bank's bump offset and cycle counter — is left unchanged.  Stated within the
`uint32_t` machine domain: a positive power-of-two-sized boundary below
`2^32`, `size + boundary` not overflowing, and a well-formed bank. -/
theorem allocate_failure_characterization (size boundary : Nat) (bank : Fin 4)
    (cycles : Nat) (s : VRAMState)
    (hb : 0 < boundary) (hbU : boundary < U32) (hsz : size + boundary ≤ U32)
    (hbt : s.currentBot bank ≤ s.currentTop bank)
    (htop : s.currentTop bank < U32)
    (hc : -128 ≤ s.bankCycles bank) :
    ((Allocate size boundary bank cycles s).1 = none ↔
      s.currentTop bank <
        s.currentBot bank + padOf (s.currentBot bank) boundary + size ∨
      8 < (s.bankCycles bank + 1) + (cycles : Int)) ∧
    ((Allocate size boundary bank cycles s).1 = none →
      (Allocate size boundary bank cycles s).2 = s) := by
  refine ⟨⟨?_, ?_⟩, allocate_none_state size boundary bank cycles s⟩
  · intro h
    by_contra hcon
    push_neg at hcon
    obtain ⟨h1, h2⟩ := hcon
    rw [allocate_succeeds size boundary bank cycles s hb hbU hsz hbt htop hc
      h1 (by omega)] at h
    simp at h
  · intro h
    rw [allocate_fails size boundary bank cycles s hb hbU hsz hbt htop
      (by omega)]

/-- C1 witness: a concrete in-budget allocation in freshly reset bank A0. -/
theorem allocate_failure_characterization_check :
    ((Allocate 0x100 32 0 0 resetVRAM).1 = none ↔
      resetVRAM.currentTop 0 <
        resetVRAM.currentBot 0 + padOf (resetVRAM.currentBot 0) 32 + 0x100 ∨
      8 < (resetVRAM.bankCycles 0 + 1) + ((0 : Nat) : Int)) ∧
    ((Allocate 0x100 32 0 0 resetVRAM).1 = none →
      (Allocate 0x100 32 0 0 resetVRAM).2 = resetVRAM) :=
  allocate_failure_characterization 0x100 32 0 0 resetVRAM (by decide) (by decide)
    (by decide) (by decide) (by decide) (by decide)

/-- C2: every successful `Allocate` advances the bank's bump offset by
exactly padding plus size and adds the cycle cost to the bank's counter,
returning the padded cursor as the address; and for every sequence of
`Allocate` calls against one freshly reset bank whose padded footprint fits
the bank's capacity and whose cumulative cycle cost is at most 8, each call
succeeds and the returned addresses are monotonically increasing by at least
each request's size, so no two allocations' byte ranges overlap
(`x.1 + x.2 ≤ y.1` for every earlier address/size pair `x` and later pair
`y`). -/
theorem allocate_run_properties :
    (∀ (size boundary : Nat) (bank : Fin 4) (cycles : Nat) (s : VRAMState) (a : Nat),
      0 < boundary → boundary < U32 → size + boundary ≤ U32 →
      s.currentBot bank ≤ s.currentTop bank → s.currentTop bank < U32 →
      -128 ≤ s.bankCycles bank →
      (Allocate size boundary bank cycles s).1 = some a →
      a = s.currentBot bank + padOf (s.currentBot bank) boundary ∧
      (Allocate size boundary bank cycles s).2.currentBot bank =
        s.currentBot bank + padOf (s.currentBot bank) boundary + size ∧
      (Allocate size boundary bank cycles s).2.bankCycles bank =
        s.bankCycles bank + (cycles : Int)) ∧
    (∀ (bank : Fin 4) (s : VRAMState) (reqs : List Req),
      (∀ r ∈ reqs, 0 < r.boundary ∧ r.boundary < U32 ∧ r.size + r.boundary ≤ U32) →
      s.currentBot bank = bankBot bank → s.currentTop bank = bankTop bank →
      s.bankCycles bank = -1 →
      paddedEnd (bankBot bank) reqs ≤ bankTop bank →
      (reqs.map Req.cycles).sum ≤ 8 →
      (runAllocs bank s reqs).1 = (allocAddrsSpec (bankBot bank) reqs).map some ∧
      List.Pairwise (fun x y => x.1 + x.2 ≤ y.1)
        ((allocAddrsSpec (bankBot bank) reqs).zip (reqs.map Req.size))) := by
  constructor
  · intro size boundary bank cycles s a hb hbU hsz hbt htop hc h
    by_cases h1 : s.currentBot bank + padOf (s.currentBot bank) boundary + size ≤
      s.currentTop bank
    · by_cases h2 : s.bankCycles bank + (cycles : Int) < 8
      · have heq := allocate_succeeds size boundary bank cycles s hb hbU hsz hbt
          htop hc h1 h2
        rw [heq] at h ⊢
        simp only [Option.some.injEq] at h
        subst h
        exact ⟨rfl, by simp [Function.update_same], by simp [Function.update_same]⟩
      · rw [allocate_fails size boundary bank cycles s hb hbU hsz hbt htop
          (Or.inr (by omega))] at h
        simp at h
    · rw [allocate_fails size boundary bank cycles s hb hbU hsz hbt htop
        (Or.inl (by omega))] at h
      simp at h
  · intro bank s reqs hreq hbot htopE hcycE hfit hsum
    have hbanks : ∀ b : Fin 4, bankBot b ≤ bankTop b ∧ bankTop b < U32 := by decide
    have hbt : s.currentBot bank ≤ s.currentTop bank := by
      rw [hbot, htopE]; exact (hbanks bank).1
    have htopU : s.currentTop bank < U32 := by rw [htopE]; exact (hbanks bank).2
    have hcy : s.bankCycles bank + (((reqs.map Req.cycles).sum : Nat) : Int) < 8 := by
      rw [hcycE]
      have : (((reqs.map Req.cycles).sum : Nat) : Int) ≤ 8 := by exact_mod_cast hsum
      omega
    have H := runAllocs_spec reqs bank s hreq hbt htopU (by rw [hcycE]; norm_num)
      hcy (by rw [hbot, htopE]; exact hfit)
    refine ⟨?_, allocAddrsSpec_pairwise reqs (bankBot bank)⟩
    rw [← hbot]
    exact H.1

/-- C2 witness: a concrete two-request run in freshly reset bank A0, the
second request forcing 0x700 bytes of alignment padding. -/
theorem allocate_run_properties_check :
    (runAllocs 0 resetVRAM [⟨0x100, 32, 2⟩, ⟨0x4000, 0x800, 3⟩]).1 =
      (allocAddrsSpec (bankBot 0) [⟨0x100, 32, 2⟩, ⟨0x4000, 0x800, 3⟩]).map some ∧
    List.Pairwise (fun x y => x.1 + x.2 ≤ y.1)
      ((allocAddrsSpec (bankBot 0) [⟨0x100, 32, 2⟩, ⟨0x4000, 0x800, 3⟩]).zip
        (([⟨0x100, 32, 2⟩, ⟨0x4000, 0x800, 3⟩] : List Req).map Req.size)) :=
  allocate_run_properties.2 0 resetVRAM [⟨0x100, 32, 2⟩, ⟨0x4000, 0x800, 3⟩]
    (by decide) (by decide) (by decide) (by decide) (by decide) (by decide)

/-- C3 counterexample: the consumed-cycle counter of a bank is its stored
`int8_t` value plus the `-1` baseline offset (the convention under which the
allocator's budget gate reads "consumed plus cost may not exceed 8", see C1).
After `ClearVRAM`, the overlay-reserved bank B1 stores `bankCycles[3] = 1`,
so its consumed-cycle baseline is 2, not the 1 the claim states. -/
theorem clearVRAM_overlay_cycles_ne_one :
    ¬ ((ClearVRAM initState).vram.bankCycles 3 + 1 = 1) := by decide

/-- C3 (amended): after `ClearVRAM`, every bank's available byte capacity
equals its original fixed capacity, every layer's cell, map, line-table and
coefficient-table address equals the below-lowest-valid-address sentinel,
and every bank's consumed-cycle counter (stored `int8_t` plus the `-1`
baseline offset) equals its reserved baseline: 0 for banks A0, A1, B0 and 2
for the overlay-reserved bank B1 (whose stored value is 1). -/
theorem clearVRAM_resets (s : VDP2State) :
    (∀ b : Fin 4, GetAvailable (ClearVRAM s).vram b = bankTop b - bankBot b) ∧
    (ClearVRAM s).nbg0Map = unallocated ∧ (ClearVRAM s).nbg0Cell = unallocated ∧
    (ClearVRAM s).nbg0Line = unallocated ∧
    (ClearVRAM s).nbg1Map = unallocated ∧ (ClearVRAM s).nbg1Cell = unallocated ∧
    (ClearVRAM s).nbg1Line = unallocated ∧
    (ClearVRAM s).nbg2Map = unallocated ∧ (ClearVRAM s).nbg2Cell = unallocated ∧
    (ClearVRAM s).nbg3Map = unallocated ∧ (ClearVRAM s).nbg3Cell = unallocated ∧
    (ClearVRAM s).rbg0Map = unallocated ∧ (ClearVRAM s).rbg0Cell = unallocated ∧
    (ClearVRAM s).rbg0Ktable = unallocated ∧
    (ClearVRAM s).vram.bankCycles 0 + 1 = 0 ∧
    (ClearVRAM s).vram.bankCycles 1 + 1 = 0 ∧
    (ClearVRAM s).vram.bankCycles 2 + 1 = 0 ∧
    (ClearVRAM s).vram.bankCycles 3 + 1 = 2 := by
  rw [show ClearVRAM s = ClearVRAM initState from rfl]
  decide

/-- C4 counterexample: loading two ordinary 8-bit-indexed 64x64 layers into
freshly reset banks does not leave the full-rotation layer's preferred bank
(bank A0, the first bank in RBG0's fallback order) untouched: each layer's
map data is allocated in bank A0, so its bump offset moves. -/
theorem twoLayerLoad_touches_bankA0 :
    ¬ ((loadAllocs tilemap256 scnNBG1
          (loadAllocs tilemap256 scnNBG0 resetVRAM).2.2).2.2.currentBot 0 =
        resetVRAM.currentBot 0) := by decide

/-- C4 (amended): loading two ordinary layers with 8-bit-indexed color and
identical 64x64-tile geometry into freshly reset banks succeeds, assigns the
two layers non-overlapping cell regions (both in bank B0) and non-overlapping
map regions, and consumes 2 cycles per layer in the bank chosen for each
layer's cell data (B0); each layer's map data however is placed in the
full-rotation layer's preferred bank A0, consuming 1 cycle per layer there
and advancing its bump offset, so that bank is not left untouched — only
banks A1 and B1 stay untouched. -/
theorem twoLayerLoad_allocation :
    (loadAllocs tilemap256 scnNBG0 resetVRAM).1 = some 0x25E00000 ∧
    (loadAllocs tilemap256 scnNBG0 resetVRAM).2.1 = some 0x25E40000 ∧
    (loadAllocs tilemap256 scnNBG1
        (loadAllocs tilemap256 scnNBG0 resetVRAM).2.2).1 = some 0x25E02000 ∧
    (loadAllocs tilemap256 scnNBG1
        (loadAllocs tilemap256 scnNBG0 resetVRAM).2.2).2.1 = some 0x25E44000 ∧
    0x25E00000 + mapAllocSize tilemap256 ≤ 0x25E02000 ∧
    0x25E40000 + tilemap256.CellByteSize ≤ 0x25E44000 ∧
    (loadAllocs tilemap256 scnNBG0 resetVRAM).2.2.bankCycles 2 =
      resetVRAM.bankCycles 2 + 2 ∧
    (loadAllocs tilemap256 scnNBG1
        (loadAllocs tilemap256 scnNBG0 resetVRAM).2.2).2.2.bankCycles 2 =
      resetVRAM.bankCycles 2 + 2 + 2 ∧
    (loadAllocs tilemap256 scnNBG1
        (loadAllocs tilemap256 scnNBG0 resetVRAM).2.2).2.2.bankCycles 0 =
      resetVRAM.bankCycles 0 + 1 + 1 ∧
    (loadAllocs tilemap256 scnNBG1
        (loadAllocs tilemap256 scnNBG0 resetVRAM).2.2).2.2.currentBot 0 =
      resetVRAM.currentBot 0 + 2 * mapAllocSize tilemap256 ∧
    (loadAllocs tilemap256 scnNBG1
        (loadAllocs tilemap256 scnNBG0 resetVRAM).2.2).2.2.currentBot 1 =
      resetVRAM.currentBot 1 ∧
    (loadAllocs tilemap256 scnNBG1
        (loadAllocs tilemap256 scnNBG0 resetVRAM).2.2).2.2.bankCycles 1 =
      resetVRAM.bankCycles 1 ∧
    (loadAllocs tilemap256 scnNBG1
        (loadAllocs tilemap256 scnNBG0 resetVRAM).2.2).2.2.currentBot 3 =
      resetVRAM.currentBot 3 ∧
    (loadAllocs tilemap256 scnNBG1
        (loadAllocs tilemap256 scnNBG0 resetVRAM).2.2).2.2.bankCycles 3 =
      resetVRAM.bankCycles 3 := by
  decide

/-- C5: automatic cell allocation requests a cycle cost derived from color
depth — 1 cycle for 4-bit-indexed, 2 for 8-bit-indexed, 4 for 15-bit direct
color — for ordinary layers (tried in the order B0, A1, A0, B1), while the
full-rotation layer RBG0 always requests the entire 8-cycle budget of one
bank, trying banks in the fixed fallback order bank0, bank1, bank2, bank3
until one succeeds. -/
theorem autoAllocateCell_policy :
    (∀ (info : TilemapInfo) (s : VRAMState),
      AutoAllocateCell info scnRBG0 s =
        allocChain info.CellByteSize 8 [0, 1, 2, 3] s) ∧
    cellReqCycles TextureColorMode.Paletted16 = 1 ∧
    cellReqCycles TextureColorMode.Paletted256 = 2 ∧
    cellReqCycles TextureColorMode.RGB555 = 4 ∧
    (∀ (info : TilemapInfo) (screen : Int) (s : VRAMState), screen ≠ scnRBG0 →
      AutoAllocateCell info screen s =
        allocChain info.CellByteSize (cellReqCycles info.ColorMode) [2, 1, 0, 3] s) :=
  ⟨autoCell_rbg0_chain, rfl, rfl, rfl, autoCell_ordinary_chain⟩

/-- C5 witness: an ordinary-layer (NBG0) cell allocation with 8-bit-indexed
color follows the ordinary fallback chain with cost 2. -/
theorem autoAllocateCell_policy_check :
    AutoAllocateCell tilemap256 scnNBG0 resetVRAM =
      allocChain tilemap256.CellByteSize (cellReqCycles tilemap256.ColorMode)
        [2, 1, 0, 3] resetVRAM :=
  autoAllocateCell_policy.2.2.2.2 tilemap256 scnNBG0 resetVRAM (by decide)

/-- C6: the map-data request size and page-alignment boundary computed by
`AutoAllocateMap` are pure functions of geometry alone: the size is map
width times map height times 2 bytes, doubled again in two-word map-entry
mode, and the boundary starts at 0x800 bytes, scaled by 4 for the small
(1x1) cell size, by 2 for two-word encoding, and by the plane-group size
class (2 for 2x1, 4 for 2x2); `AutoAllocateMap` requests exactly these
values (shown on the RBG0 branch, which performs a single allocation). -/
theorem autoAllocateMap_geometry (info : TilemapInfo) :
    mapAllocSize info =
      info.MapWidth * info.MapHeight * 2 *
        (if info.MapMode = PNB_2WORD then 2 else 1) ∧
    mapAllocBoundary info =
      0x800 * (if info.CharSize = CHAR_SIZE_1x1 then 4 else 1) *
        (if info.MapMode = PNB_2WORD then 2 else 1) *
        (if info.PlaneSize = PL_SIZE_2x2 then 4
         else if info.PlaneSize = PL_SIZE_2x1 then 2 else 1) ∧
    (∀ s : VRAMState,
      AutoAllocateMap info scnRBG0 s =
        Allocate (mapAllocSize info) (mapAllocBoundary info) 0 8 s) := by
  refine ⟨?_, ?_, ?_⟩
  · simp only [mapAllocSize, Nat.shiftLeft_eq]
    split_ifs <;> ring
  · simp only [mapAllocBoundary, Nat.shiftLeft_eq]
    split_ifs <;> norm_num
  · intro s
    simp only [AutoAllocateMap, ite_true, if_true, eq_self_iff_true]

/-- C7: the default plane-layout selection is a pure function of the map
geometry returning one of exactly four fixed 2x2 plane-index patterns
(all-same-plane, horizontal pair, vertical pair, four distinct planes); a
64x64-tile map whose plane capacity is doubled to 64x64 (2x2 cells with a
2x2 plane group) selects the all-zero single-plane layout, a 128x64 map
under the same plane-group size selects the horizontal-pair layout, and the
computation is skipped entirely for the full-rotation layer during
`LoadTilemap`. -/
theorem setPlanesDefault_patterns :
    (∀ info : TilemapInfo,
      SetPlanesDefault info = (0, 0, 0, 0) ∨ SetPlanesDefault info = (0, 1, 0, 1) ∨
      SetPlanesDefault info = (0, 0, 1, 1) ∨ SetPlanesDefault info = (0, 1, 2, 3)) ∧
    SetPlanesDefault tilemapPlane64 = (0, 0, 0, 0) ∧
    SetPlanesDefault tilemapPlane128 = (0, 1, 0, 1) ∧
    (∀ info : TilemapInfo, loadPlaneLayout scnRBG0 info = none) := by
  refine ⟨?_, by decide, by decide, ?_⟩
  · intro info
    simp only [SetPlanesDefault]
    split_ifs <;> simp
  · intro info
    simp [loadPlaneLayout]

/-- C8: the cell-index offset added to map entries is computed exactly as
`(cellAddress - bankBase) >> 5` in two-word map-entry mode, and as
`((cellAddress - bankBase) & 0x7FFF) >> 5` in one-word mode (`PNB_1WORD`)
with small (1x1) tile cells, where `bankBase` is `VDP2_VRAM_A0`; and during
the map transfer the offset is added to each entry while the palette slot
identifier is packed at bit 20 for two-word entries and bit 12 for one-word
entries. -/
theorem cellOffset_and_transfer (info : TilemapInfo) (cell : Nat)
    (hlo : VDP2_VRAM_A0 ≤ cell) (hhi : cell < U32) :
    (info.MapMode = PNB_2WORD →
      GetCellOffset info cell = (cell - VDP2_VRAM_A0) / 32) ∧
    (info.MapMode = PNB_1WORD → info.CharSize = CHAR_SIZE_1x1 →
      GetCellOffset info cell = ((cell - VDP2_VRAM_A0) &&& 0x7FFF) / 32) ∧
    (∀ (mapData : List Nat) (paloff mapoff : Nat),
      (info.MapMode = PNB_2WORD →
        Map2VRAM info mapData paloff mapoff =
          mapData.map fun e => ((e + mapoff) ||| paloff * 2 ^ 20) % U32) ∧
      (info.MapMode ≠ PNB_2WORD →
        Map2VRAM info mapData paloff mapoff =
          mapData.map fun e => ((e + mapoff) ||| paloff * 2 ^ 12) % 2 ^ 16)) := by
  have hsub := sub32_eq cell VDP2_VRAM_A0 hlo hhi
  refine ⟨?_, ?_, ?_⟩
  · intro h
    rw [PNB_2WORD] at h
    simp only [GetCellOffset, h, ite_true, if_true, eq_self_iff_true, hsub]
    rw [Nat.shiftRight_eq_div_pow]
  · intro h1 h2
    rw [PNB_1WORD] at h1
    rw [CHAR_SIZE_1x1] at h2
    simp only [GetCellOffset, h1, h2, hsub]
    norm_num [Nat.shiftRight_eq_div_pow]
  · intro mapData paloff mapoff
    constructor
    · intro h
      rw [PNB_2WORD] at h
      simp only [Map2VRAM, h, Nat.shiftLeft_eq]
      simp
    · intro h
      rw [PNB_2WORD] at h
      simp only [Map2VRAM, Nat.shiftLeft_eq]
      simp [h]

/-- C8 witness: two-word mode at a concrete cell address inside bank B0,
plus a concrete one-entry map transfer. -/
theorem cellOffset_and_transfer_check :
    (GetCellOffset
        { MapWidth := 64, MapHeight := 64, CellByteSize := 0x4000
          CharSize := CHAR_SIZE_1x1, MapMode := PNB_2WORD, PlaneSize := PL_SIZE_1x1
          ColorMode := TextureColorMode.Paletted256 } 0x25E40020 =
      (0x25E40020 - VDP2_VRAM_A0) / 32) ∧
    Map2VRAM
        { MapWidth := 64, MapHeight := 64, CellByteSize := 0x4000
          CharSize := CHAR_SIZE_1x1, MapMode := PNB_2WORD, PlaneSize := PL_SIZE_1x1
          ColorMode := TextureColorMode.Paletted256 } [5] 3 7 =
      [5].map fun e => ((e + 7) ||| 3 * 2 ^ 20) % U32 := by
  have h := cellOffset_and_transfer
    { MapWidth := 64, MapHeight := 64, CellByteSize := 0x4000
      CharSize := CHAR_SIZE_1x1, MapMode := PNB_2WORD, PlaneSize := PL_SIZE_1x1
      ColorMode := TextureColorMode.Paletted256 } 0x25E40020 (by decide) (by decide)
  exact ⟨h.1 rfl, (h.2.2 [5] 3 7).1 rfl⟩

/-- C9: `SetOpacity` maps a 16.16 fixed-point opacity to one of 32 discrete
color-calculation ratios by flooring, monotonically (the ratio is
nonincreasing in the opacity); opacity at or above 1.0 clears the layer's
bit in the color-calculation mask (blending disabled), a nonnegative
opacity below 1.0 sets it (blending enabled) and emits a ratio below 32,
negative opacity changes nothing; and opacity 0.5 produces the same
discrete ratio as directly computing `31 * (1 - 0.5)` floored. -/
theorem setOpacity_behavior :
    (∀ (m bit : Nat) (raw : Int), raw < 0 → SetOpacity raw m bit = (m, none)) ∧
    (∀ (m k : Nat) (raw : Int), k < 16 → 65536 ≤ raw →
      (SetOpacity raw m (2 ^ k)).1 &&& 2 ^ k = 0) ∧
    (∀ (m bit : Nat) (raw : Int), 0 ≤ raw → raw < 65536 →
      (SetOpacity raw m bit).1 &&& bit = bit ∧
      (SetOpacity raw m bit).2 = some (31 - raw.toNat >>> 11) ∧
      31 - raw.toNat >>> 11 < 32) ∧
    (∀ (m bit : Nat) (r1 r2 : Int) (q1 q2 : Nat), 0 ≤ r1 → r1 ≤ r2 → r2 < 65536 →
      (SetOpacity r1 m bit).2 = some q1 → (SetOpacity r2 m bit).2 = some q2 →
      q2 ≤ q1) ∧
    (∀ m bit : Nat, (SetOpacity 32768 m bit).2 = some (31 * (65536 - 32768) / 65536)) := by
  refine ⟨?_, ?_, ?_, ?_, ?_⟩
  · intro m bit raw h
    simp [SetOpacity, h]
  · intro m k raw hk h
    simp only [SetOpacity, if_neg (by omega : ¬ raw < 0), if_pos h]
    apply Nat.eq_of_testBit_eq
    intro i
    simp only [Nat.testBit_and, Nat.testBit_xor, Nat.zero_testBit]
    by_cases hik : i = k
    · subst hik
      have h16 : Nat.testBit 65535 i = true := by
        rw [show (65535 : Nat) = 2 ^ 16 - 1 by norm_num, Nat.testBit_two_pow_sub_one]
        simpa using hk
      rw [h16, Nat.testBit_two_pow_self]
      simp
    · rw [Nat.testBit_two_pow_of_ne (fun hc => hik hc.symm)]
      simp
  · intro m bit raw h0 h1
    refine ⟨?_, ?_, ?_⟩
    · simp only [SetOpacity, if_neg (by omega : ¬ raw < 0), if_neg (by omega : ¬ 65536 ≤ raw)]
      apply Nat.eq_of_testBit_eq
      intro i
      simp only [Nat.testBit_and, Nat.testBit_or]
      cases bit.testBit i <;> simp
    · simp [SetOpacity, if_neg (by omega : ¬ raw < 0), if_neg (by omega : ¬ 65536 ≤ raw)]
    · omega
  · intro m bit r1 r2 q1 q2 h0 h12 h2 hq1 hq2
    simp only [SetOpacity, if_neg (by omega : ¬ r1 < 0), if_neg (by omega : ¬ r2 < 0),
      if_neg (by omega : ¬ 65536 ≤ r1), if_neg (by omega : ¬ 65536 ≤ r2),
      Option.some.injEq] at hq1 hq2
    subst hq1
    subst hq2
    have hmono : r1.toNat >>> 11 ≤ r2.toNat >>> 11 := by
      simp only [Nat.shiftRight_eq_div_pow]
      exact Nat.div_le_div_right (by omega)
    omega
  · intro m bit
    simp only [SetOpacity]
    norm_num
    decide

/-- C9 witness: a negative opacity is a no-op, opacity 1.0 clears the
layer's bit, and opacity 0.5 yields ratio 15 = floor(31 * 0.5). -/
theorem setOpacity_behavior_check :
    SetOpacity (-1) 5 8 = (5, none) ∧
    (SetOpacity 65536 0xFFFF (2 ^ 3)).1 &&& 2 ^ 3 = 0 ∧
    (SetOpacity 32768 0 8).2 = some (31 * (65536 - 32768) / 65536) := by
  refine ⟨setOpacity_behavior.1 5 8 (-1) (by norm_num), ?_, ?_⟩
  · exact setOpacity_behavior.2.1 0xFFFF 3 65536 (by norm_num) (by norm_num)
  · exact setOpacity_behavior.2.2.2.2 0 8

/-- C10: `GetPageAddress` and `GetPlaneAddress` return `nullptr` whenever
the screen's map address still holds the below-lowest-valid-address
`unallocated` sentinel (indeed for any address below `VDP2_VRAM_A0`); only
for a valid map address do they return the map address plus a page (or
plane) offset derived from the index and the stored geometry. -/
theorem pageAndPlaneAddress (info : TilemapInfo) (i : Nat) :
    GetPageAddress unallocated info i = none ∧
    GetPlaneAddress unallocated info i = none ∧
    (∀ m : Nat, VDP2_VRAM_A0 ≤ m →
      GetPageAddress m info i =
        some (m + 2048 * i * (if info.CharSize = CHAR_SIZE_1x1 then 4 else 1) *
          (if info.MapMode = PNB_2WORD then 2 else 1)) ∧
      GetPlaneAddress m info i =
        some (m + 2048 * i * (if info.CharSize = CHAR_SIZE_1x1 then 4 else 1) *
          (if info.MapMode = PNB_2WORD then 2 else 1) *
          (if info.PlaneSize = PL_SIZE_2x2 then 4
           else if info.PlaneSize = PL_SIZE_2x1 then 2 else 1))) := by
  have hsent : unallocated < VDP2_VRAM_A0 := by norm_num [unallocated, VDP2_VRAM_A0]
  refine ⟨by simp [GetPageAddress, hsent], by simp [GetPlaneAddress, hsent], ?_⟩
  intro m hm
  constructor
  · simp only [GetPageAddress, if_neg (by omega : ¬ m < VDP2_VRAM_A0),
      Nat.shiftLeft_eq, Option.some.injEq]
    split_ifs <;> ring
  · simp only [GetPlaneAddress, if_neg (by omega : ¬ m < VDP2_VRAM_A0),
      Nat.shiftLeft_eq, Option.some.injEq]
    split_ifs <;> ring

/-- C10 witness: a valid map address inside bank A0 with the scenario
geometry (1x1 cells, one-word entries, 1x1 plane group) at page index 3. -/
theorem pageAndPlaneAddress_check :
    GetPageAddress 0x25E02000 tilemap256 3 =
      some (0x25E02000 + 2048 * 3 * (if tilemap256.CharSize = CHAR_SIZE_1x1 then 4 else 1) *
        (if tilemap256.MapMode = PNB_2WORD then 2 else 1)) :=
  ((pageAndPlaneAddress tilemap256 3).2.2 0x25E02000 (by norm_num [VDP2_VRAM_A0])).1

end SRLVDP2
